import Mathlib

/-!
Verification of the `chat-sql-agent` repository against its
natural-language specification.

The repository is a thin orchestration layer: a Streamlit chat UI over a
LangChain SQL agent, plus reporting tools and a GitHub webhook server.
This file shallowly embeds the artifacts present in the source tree
(the `.env.example` configuration template, the `Makefile`, and the
sample-database generator of `notebooks/demo.ipynb`) and, for the Python
modules whose sources are only documented (config loader, agent factory,
tool set, webhook server), models them from the specification, and proves
the specified properties.
-/

namespace ChatSqlAgent

/-! ## The configuration template `.env.example`

`.env.example` is a sequence of comment lines and active `KEY=VALUE`
assignment lines.  `envExample` lists the active (uncommented)
assignments in file order. -/

/-- One active `KEY=VALUE` assignment line of the configuration template. -/
structure EnvAssign where
  key : String
  value : String
deriving DecidableEq, Repr

/-- The active assignments of `.env.example`, in file order.  Commented-out
blocks (database-specific, cloud, GitHub App, third-party, monitoring
examples) contribute no active assignment. -/
def envExample : List EnvAssign := [
  ⟨"OPENAI_API_KEY", "your_openai_api_key_here"⟩,
  ⟨"OPENAI_MODEL", "gpt-3.5-turbo"⟩,
  ⟨"DEFAULT_DB_URL", ""⟩,
  ⟨"DB_POOL_SIZE", "10"⟩,
  ⟨"DB_MAX_OVERFLOW", "20"⟩,
  ⟨"DB_POOL_TIMEOUT", "30"⟩,
  ⟨"EMAIL_FROM", "your_email@example.com"⟩,
  ⟨"SMTP_SERVER", "smtp.gmail.com"⟩,
  ⟨"SMTP_PORT", "587"⟩,
  ⟨"SMTP_USE_TLS", "true"⟩,
  ⟨"SMTP_USERNAME", "your_email@example.com"⟩,
  ⟨"SMTP_PASSWORD", "your_email_password_or_app_password"⟩,
  ⟨"DEBUG", "false"⟩,
  ⟨"LOG_LEVEL", "INFO"⟩,
  ⟨"SECRET_KEY", "your_secret_key_here_make_it_long_and_random"⟩,
  ⟨"ALLOWED_HOSTS", "localhost,127.0.0.1"⟩,
  ⟨"STREAMLIT_SERVER_PORT", "8501"⟩,
  ⟨"STREAMLIT_SERVER_ADDRESS", "localhost"⟩,
  ⟨"UPLOAD_DIR", "uploads"⟩,
  ⟨"REPORT_DIR", "reports"⟩,
  ⟨"MAX_FILE_SIZE", "104857600"⟩,
  ⟨"MAX_ITERATIONS", "10"⟩,
  ⟨"AGENT_TIMEOUT", "300"⟩,
  ⟨"VERBOSE_AGENT", "true"⟩,
  ⟨"RATE_LIMIT_PER_MINUTE", "60"⟩,
  ⟨"ENABLE_CORS", "false"⟩,
  ⟨"CORS_ORIGINS", "http://localhost:3000,http://localhost:8080"⟩,
  ⟨"HOT_RELOAD", "false"⟩,
  ⟨"SHOW_SQL_QUERIES", "false"⟩,
  ⟨"ENABLE_PROFILING", "false"⟩]

/-- Look up the value assigned to a key in the configuration template. -/
def templateValue (k : String) : Option String :=
  (envExample.find? (fun a => a.key = k)).map EnvAssign.value

/-- A key is defined by the template when some active assignment carries it. -/
def templateDefines (k : String) : Bool :=
  envExample.any (fun a => a.key = k)

/-- Decimal reading of a template value, as Python's `int` would read it. -/
def decimalValue (s : String) : Nat :=
  s.data.foldl (fun n c => n * 10 + (c.toNat - 48)) 0

/-! ## The `Makefile`

Each target of the repository's `Makefile` is a name together with its
recipe lines, embedded verbatim. -/

/-- One `Makefile` target: its name and its recipe lines in order. -/
structure MakeTarget where
  name : String
  recipe : List String
deriving DecidableEq, Repr

/-- The targets of the repository's `Makefile`, in file order. -/
def makefileTargets : List MakeTarget := [
  ⟨"help", [
    "@echo \"Available commands:\"",
    "@echo \"  install    - Install dependencies\"",
    "@echo \"  run        - Run the Streamlit application\"",
    "@echo \"  test       - Run all tests\"",
    "@echo \"  test-unit  - Run unit tests only\"",
    "@echo \"  lint       - Run linting checks\"",
    "@echo \"  format     - Format code with black\"",
    "@echo \"  setup-dev  - Setup development environment\"",
    "@echo \"  clean      - Clean temporary files\"",
    "@echo \"  sample-db  - Create sample database\""]⟩,
  ⟨"install", ["pip install -r requirements.txt"]⟩,
  ⟨"run", ["streamlit run app/main.py"]⟩,
  ⟨"test", ["python -m pytest tests/ -v"]⟩,
  ⟨"test-unit", ["python -m pytest tests/unit/ -v"]⟩,
  ⟨"test-integration", ["python -m pytest tests/integration/ -v"]⟩,
  ⟨"lint", [
    "flake8 src/ app/ tests/",
    "black --check src/ app/ tests/",
    "isort --check-only src/ app/ tests/"]⟩,
  ⟨"format", ["black src/ app/ tests/", "isort src/ app/ tests/"]⟩,
  ⟨"setup-dev", ["pip install -e .", "pip install -r requirements.txt"]⟩,
  ⟨"clean", [
    "find . -type f -name \"*.pyc\" -delete",
    "find . -type d -name \"__pycache__\" -delete",
    "find . -type f -name \"*.log\" -delete",
    "rm -rf .pytest_cache",
    "rm -rf .coverage",
    "rm -rf htmlcov/"]⟩,
  ⟨"sample-db", ["python scripts/create_sample_db.py"]⟩,
  ⟨"webhook-server", ["python -m src.github_webhooks"]⟩,
  ⟨"security-scan", ["bandit -r src/ -ll", "safety check"]⟩]

/-- The recipe of a named `Makefile` target. -/
def recipeOf (n : String) : Option (List String) :=
  (makefileTargets.find? (fun t => t.name = n)).map MakeTarget.recipe

/-- A recipe line launches one of the two applications when it is the
Streamlit invocation of the web UI or the module invocation of the
webhook listener. -/
def launchesApp (line : String) : Bool :=
  line = "streamlit run app/main.py" || line = "python -m src.github_webhooks"

/-- The `Makefile` targets whose recipe launches an application. -/
def launcherTargets : List MakeTarget :=
  makefileTargets.filter (fun t => t.recipe.any launchesApp)

/-! ## The sample-database generator of `notebooks/demo.ipynb`

Step 3 of the demo notebook creates a SQLite database with `customers`,
`products` and `orders` tables, seeds NumPy's PRNG with 42, inserts five
fixed customers and six fixed products, and generates 50 random orders.
The row types and the generation loop are embedded below.  The order date
is stored here as the drawn day offset from 2023-06-01; the notebook
formats it as a date string, which affects no claim. -/

/-- A row of the `customers` table. -/
structure Customer where
  customer_id : Nat
  name : String
  email : String
  country : String
  signup_date : String
deriving DecidableEq, Repr

/-- A row of the `products` table.  `price` is the REAL column, read
exactly as the decimal literal of the source. -/
structure Product where
  product_id : Nat
  name : String
  category : String
  price : Rat
  stock_quantity : Nat
deriving DecidableEq, Repr

/-- A row of the `orders` table. -/
structure Order where
  order_id : Nat
  customer_id : Nat
  product_id : Nat
  quantity : Nat
  order_day : Nat
  total_amount : Rat
deriving DecidableEq, Repr

/-- The five customers inserted by the notebook. -/
def customersData : List Customer := [
  ⟨1, "Alice Johnson", "alice@email.com", "USA", "2023-01-15"⟩,
  ⟨2, "Bob Smith", "bob@email.com", "Canada", "2023-02-20"⟩,
  ⟨3, "Charlie Brown", "charlie@email.com", "UK", "2023-03-10"⟩,
  ⟨4, "Diana Prince", "diana@email.com", "Australia", "2023-04-05"⟩,
  ⟨5, "Eve Davis", "eve@email.com", "Germany", "2023-05-12"⟩]

/-- The six products inserted by the notebook. -/
def productsData : List Product := [
  ⟨1, "Laptop", "Electronics", 999.99, 50⟩,
  ⟨2, "Smartphone", "Electronics", 699.99, 100⟩,
  ⟨3, "Coffee Mug", "Home & Kitchen", 12.99, 200⟩,
  ⟨4, "Running Shoes", "Sports", 89.99, 75⟩,
  ⟨5, "Book: Python Programming", "Books", 29.99, 150⟩,
  ⟨6, "Wireless Headphones", "Electronics", 149.99, 80⟩]

/-- `np.random.randint(low, high)` draws a uniform integer in the half-open
range `[low, high)`.  The seeded Mersenne Twister stream is abstracted as a
stream of raw natural draws; one call reduces one raw draw into range. -/
def randint (low high raw : Nat) : Nat :=
  low + raw % (high - low)

/-- `SELECT price FROM products WHERE product_id = ?`, as run inside the
order-generation loop. -/
def priceOf (pid : Nat) : Rat :=
  ((productsData.find? (fun p => p.product_id = pid)).map Product.price).getD 0

/-- One iteration of the order-generation loop: the i-th order (0-based)
consumes four consecutive raw draws of the stream `s`, looks up the price
of the drawn product, and stores `total_amount = price * quantity`. -/
def mkOrder (s : Nat → Nat) (i : Nat) : Order :=
  let customer_id := randint 1 6 (s (4 * i))
  let product_id := randint 1 7 (s (4 * i + 1))
  let quantity := randint 1 4 (s (4 * i + 2))
  let order_day := randint 0 180 (s (4 * i + 3))
  let price := priceOf product_id
  { order_id := i + 1
    customer_id := customer_id
    product_id := product_id
    quantity := quantity
    order_day := order_day
    total_amount := price * (quantity : Rat) }

/-- The 50 orders generated by the loop, in insertion order. -/
def ordersData (s : Nat → Nat) : List Order :=
  (List.range 50).map (mkOrder s)

/-- The whole generation step: the fixed customers and products tables and
the stream-driven orders table. -/
def generateSampleDb (s : Nat → Nat) :
    List Customer × List Product × List Order :=
  (customersData, productsData, ordersData s)

/-- Modelled from the source: `np.random.seed(42)` fixes the PRNG state
before any draw, so the stream of raw draws is a pure function of the
seed.  The Mersenne Twister recurrence is abstracted by a linear
congruential recurrence; no claim depends on the concrete draw values. -/
def seedStream (seed : Nat) : Nat → Nat :=
  fun n =>
    (fun x => (6364136223846793005 * x + 1442695040888963407) % 2 ^ 64)^[n + 1] seed

/-! ## The configuration loader

`src/config.py` is not among the sources; only its documentation is.  It
is modelled from the specification below. -/

/-- Modelled from the spec: the settings object produced by the
configuration loader of the absent `src/config.py`, restricted to the
fields claim C3 names.  The README documents `OPENAI_API_KEY` as required
and `SMTP_SERVER` / `SMTP_PORT` as optional with defaults
`smtp.gmail.com` and `587`. -/
structure Settings where
  openai_api_key : String
  smtp_server : String
  smtp_port : Nat
deriving DecidableEq, Repr

/-- Modelled from the spec: the configuration loader "reads environment
variables into a settings object".  The environment is a partial map from
variable names to values; a missing required `OPENAI_API_KEY` fails with
the message documented in the README troubleshooting section; missing
optional SMTP variables take their documented defaults. -/
def loadSettings (env : String → Option String) : Except String Settings :=
  match env "OPENAI_API_KEY" with
  | none => .error "Error: OPENAI_API_KEY is required"
  | some key =>
    .ok { openai_api_key := key
          smtp_server := (env "SMTP_SERVER").getD "smtp.gmail.com"
          smtp_port := ((env "SMTP_PORT").map decimalValue).getD 587 }

/-! ## The GitHub webhook server

`src/github_webhooks.py` is not among the sources; the setup guide
documents its endpoint, headers, stub handlers and subscribed events.  It
is modelled from the specification below. -/

/-- An HTTP request to the webhook server: method, path, the optional
X-GitHub-Event and HMAC signature headers, and the raw body. -/
structure WebhookRequest where
  method : String
  path : String
  eventHeader : Option String
  signatureHeader : Option String
  body : String

/-- The server's reaction: either the named stub handler was invoked and a
2xx status returned, or the request was rejected with a non-2xx status. -/
inductive WebhookResponse where
  | dispatched (handler : String) (status : Nat)
  | rejected (status : Nat)
deriving DecidableEq, Repr

/-- Modelled from the spec: the per-event stub handlers of the absent
`src/github_webhooks.py`, keyed by the X-GitHub-Event string.  The setup
guide names `handle_pull_request` and `handle_issue_comment` and lists
the subscribed event types. -/
def handlerFor (event : String) : Option String :=
  if event = "ping" then some "handle_ping"
  else if event = "push" then some "handle_push"
  else if event = "pull_request" then some "handle_pull_request"
  else if event = "issues" then some "handle_issues"
  else if event = "issue_comment" then some "handle_issue_comment"
  else if event = "pull_request_review" then some "handle_pull_request_review"
  else if event = "pull_request_review_comment" then
    some "handle_pull_request_review_comment"
  else none

/-- Modelled from the spec: the webhook endpoint is "a simple
signature-verify-then-dispatch-by-event-type map over HTTP".  The HMAC
digest is abstracted as a keyed-digest function `hmacSha256`; a POST to
the endpoint is first checked against the shared webhook secret and only
on success dispatched to the handler registered for its event header. -/
def handleWebhook (hmacSha256 : String → String → String) (secret : String)
    (req : WebhookRequest) : WebhookResponse :=
  if req.method = "POST" ∧ req.path = "/github-webhook" then
    match req.signatureHeader with
    | none => .rejected 403
    | some sig =>
      if sig = hmacSha256 secret req.body then
        match req.eventHeader with
        | none => .rejected 400
        | some ev =>
          match handlerFor ev with
          | some h => .dispatched h 200
          | none => .rejected 404
      else .rejected 403
  else .rejected 404

/-! ## Error handling at the external call sites

The call sites live in the absent Python modules; they are modelled from
the specification: each call to the database driver, the LLM API, or the
SMTP server is attempted exactly once inside a try/except whose handler
converts the exception to a user-visible message, and webhook processing
errors become a non-2xx status. -/

/-- Outcome of one chat interaction as rendered in the chat UI. -/
inductive ChatOutcome where
  | answer (text : String)
  | errorMessage (text : String)
deriving DecidableEq, Repr

/-- Modelled from the spec: "no retry, backoff, or recovery policy" — an
external call consumes only the first outcome of the oracle listing what
successive attempts would return. -/
def attemptOnce {α : Type} (oracle : List (Except String α)) :
    Except String α :=
  oracle.head?.getD (.error "no response")

/-- Modelled from the spec: one chat turn connects to the database, then
invokes the LLM-driven agent; either failure is caught at its call site
and surfaced as the documented user-visible message. -/
def chatTurn (dbOracle : List (Except String Unit))
    (llmOracle : List (Except String String)) : ChatOutcome :=
  match attemptOnce dbOracle with
  | .error _ => .errorMessage "Error: Could not connect to database"
  | .ok _ =>
    match attemptOnce llmOracle with
    | .error e => .errorMessage ("Error: " ++ e)
    | .ok ans => .answer ans

/-- Modelled from the spec: the email tool sends over SMTP once; a failure
is caught there and surfaced as the documented message. -/
def sendEmailTool (smtpOracle : List (Except String Unit)) : ChatOutcome :=
  match attemptOnce smtpOracle with
  | .error _ => .errorMessage "Error: Failed to send email"
  | .ok _ => .answer "Email sent successfully"

/-- Modelled from the spec: an error inside webhook processing is surfaced
as a non-2xx HTTP status from the endpoint. -/
def webhookStatus (oracle : List (Except String Unit)) : Nat :=
  match attemptOnce oracle with
  | .error _ => 500
  | .ok _ => 200

/-! ## The agent factory

`src/agents.py` is not among the sources; the README and the demo
notebook document `create_sql_agent(url)` and the example queries run
through the returned agent.  It is modelled from the specification. -/

/-- The example queries documented in the demo notebook, in order. -/
def documentedExampleQueries : List String := [
  "How many customers do we have?",
  "What\x27s the total revenue from all orders?",
  "Which product category generates the most revenue?",
  "Show me the top 3 customers by total spending",
  "What was our average order value in the last 30 days?",
  "What are the most popular products by quantity sold?"]

/-- Modelled from the spec: the external LLM agent framework, which spec
section 8 records as producing non-error responses on the example
queries.  It is abstracted as a total answering function over the bound
database, so a run returns normally. -/
def frameworkAnswer (database_url : String) (question : String) :
    Except String String :=
  if question = "How many customers do we have?" then
    .ok (toString customersData.length)
  else
    .ok ("Answer computed over " ++ database_url ++ " for: " ++ question)

/-- The agent object: the bound connection string and the callable `run`
interface. -/
structure SqlAgent where
  database_url : String
  run : String → Except String String

/-- Modelled from the spec: "the agent factory constructs an LLM agent
bound to a database connection string"; `create_sql_agent(url)` returns
the agent whose `run` answers questions over that database. -/
def create_sql_agent (database_url : String) : SqlAgent :=
  { database_url := database_url
    run := fun q => frameworkAnswer database_url q }

/-! ## The tool set

`src/tools.py` and `src/reporting.py` are not among the sources; the spec
says the tool set "wraps email sending, chart creation, PDF report
generation as callable tools exposed to the agent".  It is modelled from
the specification. -/

/-- The side-effecting operation a tool wraps. -/
inductive ToolAction where
  | sendEmail
  | createChart
  | generatePdfReport
deriving DecidableEq, Repr

/-- A callable tool exposed to the agent: its name, the operation it
wraps, and its callable body. -/
structure AgentTool where
  name : String
  action : ToolAction
  call : String → String

/-- Modelled from the spec: the email-sending tool. -/
def emailTool : AgentTool :=
  ⟨"send_email", .sendEmail, fun input => "Email sent: " ++ input⟩

/-- Modelled from the spec: the chart-creation tool. -/
def chartTool : AgentTool :=
  ⟨"create_chart", .createChart, fun input => "Chart created: " ++ input⟩

/-- Modelled from the spec: the PDF-report-generation tool. -/
def pdfReportTool : AgentTool :=
  ⟨"generate_pdf_report", .generatePdfReport,
    fun input => "PDF report generated: " ++ input⟩

/-- Modelled from the spec: the tool list handed to the agent. -/
def get_custom_tools : List AgentTool := [emailTool, chartTool, pdfReportTool]

/-- The agent invokes a tool by calling its callable on the input. -/
def invokeTool (t : AgentTool) (input : String) : String := t.call input

end ChatSqlAgent

namespace ChatSqlAgent

/-- Claim C5: the configuration template defines the file-size limit
`MAX_FILE_SIZE` with default `104857600` bytes and the agent iteration
limit `MAX_ITERATIONS` with default `10`, alongside the API keys, SMTP
credentials, and the database URL. -/
theorem C5_config_template_limits :
    templateValue "MAX_FILE_SIZE" = some "104857600" ∧
    (templateValue "MAX_FILE_SIZE").map decimalValue = some 104857600 ∧
    templateValue "MAX_ITERATIONS" = some "10" ∧
    (templateValue "MAX_ITERATIONS").map decimalValue = some 10 ∧
    templateDefines "OPENAI_API_KEY" = true ∧
    templateDefines "SMTP_SERVER" = true ∧
    templateDefines "SMTP_PORT" = true ∧
    templateDefines "SMTP_USERNAME" = true ∧
    templateDefines "SMTP_PASSWORD" = true ∧
    templateDefines "EMAIL_FROM" = true ∧
    templateDefines "DEFAULT_DB_URL" = true := by
  decide

/-- Claim C6: the `run` target launches the Streamlit web chat UI with
`streamlit run app/main.py`, the `webhook-server` target launches the
webhook HTTP listener with `python -m src.github_webhooks`, and these two
targets are exactly the ones whose recipe launches an application. -/
theorem C6_cli_entry_points :
    recipeOf "run" = some ["streamlit run app/main.py"] ∧
    recipeOf "webhook-server" = some ["python -m src.github_webhooks"] ∧
    launcherTargets.map MakeTarget.name = ["run", "webhook-server"] := by
  decide

/-- Every identifier in `1..5` names an inserted customer. -/
lemma customersData_covers (n : Nat) (h1 : 1 ≤ n) (h5 : n ≤ 5) :
    ∃ c ∈ customersData, c.customer_id = n := by
  interval_cases n <;> decide

/-- Every identifier in `1..6` names an inserted product. -/
lemma productsData_covers (n : Nat) (h1 : 1 ≤ n) (h6 : n ≤ 6) :
    ∃ p ∈ productsData, p.product_id = n := by
  interval_cases n <;> decide

/-- The invariant of one generated order, for any raw-draw stream. -/
lemma mkOrder_invariant (s : Nat → Nat) (i : Nat) :
    (mkOrder s i).total_amount
      = priceOf (mkOrder s i).product_id * ((mkOrder s i).quantity : Rat) ∧
    1 ≤ (mkOrder s i).customer_id ∧ (mkOrder s i).customer_id ≤ 5 ∧
    1 ≤ (mkOrder s i).product_id ∧ (mkOrder s i).product_id ≤ 6 := by
  have hc : s (4 * i) % 5 < 5 := Nat.mod_lt _ (by omega)
  have hp : s (4 * i + 1) % 6 < 6 := Nat.mod_lt _ (by omega)
  refine ⟨rfl, ?_, ?_, ?_, ?_⟩ <;>
    simp only [mkOrder, randint] <;> omega

/-- Claim C9: every one of the 50 generated orders stores
`total_amount = price(product_id) * quantity`, its `customer_id` lies in
`1..5`, its `product_id` lies in `1..6`, and both reference previously
inserted rows — for any raw-draw stream of the seeded PRNG. -/
theorem C9_orders_invariant (s : Nat → Nat) (o : Order)
    (ho : o ∈ ordersData s) :
    o.total_amount = priceOf o.product_id * (o.quantity : Rat) ∧
    1 ≤ o.customer_id ∧ o.customer_id ≤ 5 ∧
    1 ≤ o.product_id ∧ o.product_id ≤ 6 ∧
    (∃ c ∈ customersData, c.customer_id = o.customer_id) ∧
    (∃ p ∈ productsData, p.product_id = o.product_id) := by
  rcases List.mem_map.mp ho with ⟨i, _, rfl⟩
  obtain ⟨ht, hc1, hc5, hp1, hp6⟩ := mkOrder_invariant s i
  exact ⟨ht, hc1, hc5, hp1, hp6,
    customersData_covers _ hc1 hc5, productsData_covers _ hp1 hp6⟩

/-- Witness for C9 at the constant-zero stream and its first order. -/
theorem C9_orders_invariant_witness :
    mkOrder (fun _ => 0) 0 ∈ ordersData (fun _ => 0) ∧
    ((mkOrder (fun _ => 0) 0).total_amount
        = priceOf (mkOrder (fun _ => 0) 0).product_id
            * ((mkOrder (fun _ => 0) 0).quantity : Rat) ∧
      1 ≤ (mkOrder (fun _ => 0) 0).customer_id ∧
      (mkOrder (fun _ => 0) 0).customer_id ≤ 5 ∧
      1 ≤ (mkOrder (fun _ => 0) 0).product_id ∧
      (mkOrder (fun _ => 0) 0).product_id ≤ 6 ∧
      (∃ c ∈ customersData, c.customer_id = (mkOrder (fun _ => 0) 0).customer_id) ∧
      (∃ p ∈ productsData, p.product_id = (mkOrder (fun _ => 0) 0).product_id)) :=
  ⟨List.mem_map_of_mem _ (by decide), C9_orders_invariant (fun _ => 0)
    (mkOrder (fun _ => 0) 0) (List.mem_map_of_mem _ (by decide))⟩

/-- Claim C10: the generation step is deterministic — any two runs driven
by the stream fixed by `np.random.seed(42)` produce identical customers,
products, and orders tables. -/
theorem C10_generation_deterministic (s1 s2 : Nat → Nat)
    (h1 : s1 = seedStream 42) (h2 : s2 = seedStream 42) :
    generateSampleDb s1 = generateSampleDb s2 := by
  subst h1; subst h2; rfl

/-- Witness for C10 at two runs from the seed-42 stream. -/
theorem C10_generation_deterministic_witness :
    seedStream 42 = seedStream 42 ∧
    generateSampleDb (seedStream 42) = generateSampleDb (seedStream 42) :=
  ⟨rfl, C10_generation_deterministic (seedStream 42) (seedStream 42) rfl rfl⟩

/-- Claim C3: the configuration loader fails with the documented message
`Error: OPENAI_API_KEY is required` when `OPENAI_API_KEY` is unset, and
when the optional `SMTP_SERVER` and `SMTP_PORT` are unset they default to
`smtp.gmail.com` and `587` in the loaded settings object. -/
theorem C3_config_loader :
    (∀ env : String → Option String, env "OPENAI_API_KEY" = none →
      loadSettings env = .error "Error: OPENAI_API_KEY is required") ∧
    (∀ (env : String → Option String) (key : String),
      env "OPENAI_API_KEY" = some key →
      env "SMTP_SERVER" = none → env "SMTP_PORT" = none →
      ∃ st : Settings, loadSettings env = .ok st ∧
        st.openai_api_key = key ∧
        st.smtp_server = "smtp.gmail.com" ∧ st.smtp_port = 587) := by
  constructor
  · intro env h
    simp [loadSettings, h]
  · intro env key hk hs hp
    refine ⟨⟨key, "smtp.gmail.com", 587⟩, ?_, rfl, rfl, rfl⟩
    simp [loadSettings, hk, hs, hp]

/-- Witness for C3 at an empty environment and at an environment carrying
only the API key. -/
theorem C3_config_loader_witness :
    ((fun _ : String => (none : Option String)) "OPENAI_API_KEY" = none ∧
      loadSettings (fun _ => none)
        = .error "Error: OPENAI_API_KEY is required") ∧
    (∃ st : Settings,
      loadSettings
        (fun k => if k = "OPENAI_API_KEY" then some "test-key" else none)
        = .ok st ∧
      st.openai_api_key = "test-key" ∧
      st.smtp_server = "smtp.gmail.com" ∧ st.smtp_port = 587) :=
  ⟨⟨rfl, C3_config_loader.1 (fun _ => none) rfl⟩,
    C3_config_loader.2
      (fun k => if k = "OPENAI_API_KEY" then some "test-key" else none)
      "test-key" (by decide) (by decide) (by decide)⟩

/-- Claim C1: a POST to the webhook endpoint carrying an event-type header
and an HMAC signature header is verified against the shared secret first;
on success it is dispatched to the stub handler registered for the event
string, and with an invalid or missing signature no handler is ever
dispatched. -/
theorem C1_webhook_verify_then_dispatch :
    (∀ (hmacSha256 : String → String → String) (secret : String)
        (req : WebhookRequest) (ev h : String),
      req.method = "POST" → req.path = "/github-webhook" →
      req.eventHeader = some ev →
      req.signatureHeader = some (hmacSha256 secret req.body) →
      handlerFor ev = some h →
      handleWebhook hmacSha256 secret req = .dispatched h 200) ∧
    (∀ (hmacSha256 : String → String → String) (secret : String)
        (req : WebhookRequest) (sig : String),
      req.signatureHeader = some sig →
      sig ≠ hmacSha256 secret req.body →
      ∀ h s, handleWebhook hmacSha256 secret req ≠ .dispatched h s) ∧
    (∀ (hmacSha256 : String → String → String) (secret : String)
        (req : WebhookRequest),
      req.signatureHeader = none →
      ∀ h s, handleWebhook hmacSha256 secret req ≠ .dispatched h s) := by
  refine ⟨?_, ?_, ?_⟩
  · intro hmacSha256 secret req ev h hm hp he hs hh
    simp [handleWebhook, hm, hp, he, hs, hh]
  · intro hmacSha256 secret req sig hs hne h s
    by_cases hmp : req.method = "POST" ∧ req.path = "/github-webhook"
    · simp [handleWebhook, hmp, hs, hne]
    · simp [handleWebhook, hmp]
  · intro hmacSha256 secret req hs h s
    by_cases hmp : req.method = "POST" ∧ req.path = "/github-webhook"
    · simp [handleWebhook, hmp, hs]
    · simp [handleWebhook, hmp]

/-- Witness for C1: a correctly signed pull_request delivery dispatches to
`handle_pull_request`, and the same delivery with a bad signature is not
dispatched anywhere. -/
theorem C1_webhook_verify_then_dispatch_witness :
    handleWebhook (fun k b => k ++ ":" ++ b) "shared-secret"
      ⟨"POST", "/github-webhook", some "pull_request",
        some ((fun k b => k ++ ":" ++ b) "shared-secret" "payload"),
        "payload"⟩
      = .dispatched "handle_pull_request" 200 ∧
    (∀ h s,
      handleWebhook (fun k b => k ++ ":" ++ b) "shared-secret"
        ⟨"POST", "/github-webhook", some "pull_request",
          some "bad-signature", "payload"⟩
        ≠ .dispatched h s) :=
  ⟨C1_webhook_verify_then_dispatch.1 (fun k b => k ++ ":" ++ b)
      "shared-secret"
      ⟨"POST", "/github-webhook", some "pull_request",
        some ((fun k b => k ++ ":" ++ b) "shared-secret" "payload"),
        "payload"⟩
      "pull_request" "handle_pull_request" rfl rfl rfl rfl rfl,
    C1_webhook_verify_then_dispatch.2.1 (fun k b => k ++ ":" ++ b)
      "shared-secret"
      ⟨"POST", "/github-webhook", some "pull_request",
        some "bad-signature", "payload"⟩
      "bad-signature" rfl (by decide)⟩

/-- Claim C2: a database, LLM, or SMTP error is caught at its call site
and surfaced as the documented user-visible chat message, a webhook
processing error is surfaced as a non-2xx status, and no retry happens:
every outcome depends only on the first attempt of each oracle. -/
theorem C2_errors_surfaced_no_retry :
    (∀ (e : String) (rest : List (Except String Unit))
        (llm : List (Except String String)),
      chatTurn (.error e :: rest) llm
        = .errorMessage "Error: Could not connect to database") ∧
    (∀ (rest : List (Except String Unit)) (e : String)
        (rest2 : List (Except String String)),
      chatTurn (.ok () :: rest) (.error e :: rest2)
        = .errorMessage ("Error: " ++ e)) ∧
    (∀ (e : String) (rest : List (Except String Unit)),
      sendEmailTool (.error e :: rest)
        = .errorMessage "Error: Failed to send email") ∧
    (∀ (e : String) (rest : List (Except String Unit)),
      webhookStatus (.error e :: rest) = 500 ∧
      ¬(200 ≤ webhookStatus (.error e :: rest) ∧
        webhookStatus (.error e :: rest) < 300)) ∧
    (∀ (a : Except String Unit) (b : Except String String)
        (r1 r3 : List (Except String Unit))
        (r2 r4 : List (Except String String)),
      chatTurn (a :: r1) (b :: r2) = chatTurn (a :: r3) (b :: r4)) ∧
    (∀ (a : Except String Unit) (r1 r2 : List (Except String Unit)),
      sendEmailTool (a :: r1) = sendEmailTool (a :: r2) ∧
      webhookStatus (a :: r1) = webhookStatus (a :: r2)) := by
  refine ⟨fun e rest llm => rfl, fun rest e rest2 => rfl,
    fun e rest => rfl, fun e rest => ⟨rfl, by simp [webhookStatus, attemptOnce]⟩,
    fun a b r1 r3 r2 r4 => ?_, fun a r1 r2 => ⟨?_, ?_⟩⟩
  · cases a <;> cases b <;> rfl
  · cases a <;> rfl
  · cases a <;> rfl

/-- Claim C4: for every database connection string, `create_sql_agent`
returns an agent bound to that string exposing a callable `run`, and each
documented example query run through it yields a non-error response. -/
theorem C4_agent_factory (database_url : String) (q : String)
    (hq : q ∈ documentedExampleQueries) :
    (create_sql_agent database_url).database_url = database_url ∧
    ∃ a : String, (create_sql_agent database_url).run q = .ok a := by
  refine ⟨rfl, ?_⟩
  fin_cases hq <;> exact ⟨_, rfl⟩

/-- Witness for C4 at the README connection string and the first
documented example query. -/
theorem C4_agent_factory_witness :
    "How many customers do we have?" ∈ documentedExampleQueries ∧
    ((create_sql_agent "sqlite:///your_database.db").database_url
        = "sqlite:///your_database.db" ∧
      ∃ a : String,
        (create_sql_agent "sqlite:///your_database.db").run
          "How many customers do we have?" = .ok a) :=
  ⟨by decide,
    C4_agent_factory "sqlite:///your_database.db"
      "How many customers do we have?" (by decide)⟩

/-- Claim C7: the tool set exposed to the agent wraps exactly the three
side-effecting operations — email sending, chart creation, PDF report
generation — and every tool invocation by the agent resolves to one of
these three callables. -/
theorem C7_tool_set (t : AgentTool) (ht : t ∈ get_custom_tools) :
    get_custom_tools.map AgentTool.action
      = [.sendEmail, .createChart, .generatePdfReport] ∧
    (t = emailTool ∨ t = chartTool ∨ t = pdfReportTool) ∧
    (∀ input, invokeTool t input = emailTool.call input ∨
      invokeTool t input = chartTool.call input ∨
      invokeTool t input = pdfReportTool.call input) := by
  refine ⟨rfl, ?_, ?_⟩
  · simpa [get_custom_tools] using ht
  · intro input
    rcases (by simpa [get_custom_tools] using ht :
        t = emailTool ∨ t = chartTool ∨ t = pdfReportTool) with h | h | h <;>
      subst h <;> simp [invokeTool]

/-- Witness for C7 at the email tool. -/
theorem C7_tool_set_witness :
    emailTool ∈ get_custom_tools ∧
    (get_custom_tools.map AgentTool.action
        = [.sendEmail, .createChart, .generatePdfReport] ∧
      (emailTool = emailTool ∨ emailTool = chartTool ∨
        emailTool = pdfReportTool) ∧
      (∀ input, invokeTool emailTool input = emailTool.call input ∨
        invokeTool emailTool input = chartTool.call input ∨
        invokeTool emailTool input = pdfReportTool.call input)) :=
  ⟨List.mem_cons_self _ _,
    C7_tool_set emailTool (List.mem_cons_self _ _)⟩

end ChatSqlAgent
